import Mathlib

/-!
Verification development for the authenticated request runtime of the
OneSilaMagento2Api client library (`magento/clients.py`).

The python source is shallowly embedded: pure computations become Lean
functions, the stateful authentication/request runtime becomes explicit
state passing over a `ClientState` record together with a finite stream of
network responses, and python exceptions become `Except`-style error values.
Each definition carries a comment pointing at the python construct it embeds.
-/

namespace Magento

/- ===================================================================
   Store configuration records and scope resolution
   (clients.py, class Store, lines 520-561)
   =================================================================== -/

/-- A store configuration record as returned by the `store/storeConfigs`
endpoint: the fields of the `APIResponse` wrapper that `Store.active`
reads, namely the string `code` and the numeric `id`. -/
structure StoreConfig where
  code : String
  id : Nat
deriving DecidableEq, Repr

/-- Modelled from the spec: the `StoreCode.DEFAULT` constant of the constants
module (which is not among the analysed sources); the spec fixes the default
store code to the string "default". -/
def storeCodeDefault : String := "default"

/-- Modelled from the spec: the `StoreCode.ALL` constant of the constants
module (not among the analysed sources); the spec names the "all" scope. -/
def storeCodeAll : String := "all"

/-- The store code `Store.active` resolves for a given client scope
(clients.py line 539): the default code when the scope is the empty string
or the "all" code, otherwise the scope itself. -/
def resolvedStoreCode (scope : String) : String :=
  if scope = "" ∨ scope = storeCodeAll then storeCodeDefault else scope

/-- One insertion step of a stable sort of store configs by ascending `id`,
embedding the ordering behaviour of `sorted(self.configs, key=lambda config:
config.id)` in `Store.active` (clients.py line 545). -/
def insertById (c : StoreConfig) : List StoreConfig → List StoreConfig
  | [] => [c]
  | d :: ds => if c.id ≤ d.id then c :: d :: ds else d :: insertById c ds

/-- Stable sort of store configs by ascending `id`; python `sorted` with the
`id` key is stable, and insertion via `insertById` from the right preserves
the original order of configs with equal ids. -/
def sortedById (l : List StoreConfig) : List StoreConfig :=
  l.foldr insertById []

/-- `Store.active` (clients.py lines 536-545): scans the fetched configs in
list order and returns the first whose `code` equals the resolved store code;
when none matches and the resolved code is the default code, returns the
config with the smallest `id`.  The python code raises `IndexError` when the
fallback branch runs on an empty config list; here that case is `none`, a
case no theorem below relies on. -/
def active (configs : List StoreConfig) (scope : String) : Option StoreConfig :=
  let store_code := resolvedStoreCode scope
  match configs.find? (fun s => s.code == store_code) with
  | some s => some s
  | none =>
    if store_code = storeCodeDefault then (sortedById configs).head? else none

lemma mem_insertById {x c : StoreConfig} {l : List StoreConfig} :
    x ∈ insertById c l ↔ x = c ∨ x ∈ l := by
  induction l with
  | nil => simp [insertById]
  | cons d ds ih =>
    by_cases h : c.id ≤ d.id
    · simp [insertById, h, List.mem_cons]
      try tauto
    · simp [insertById, h, List.mem_cons, ih]
      try tauto

lemma mem_sortedById {x : StoreConfig} {l : List StoreConfig} :
    x ∈ sortedById l ↔ x ∈ l := by
  induction l with
  | nil => simp [sortedById]
  | cons d ds ih =>
    simp only [sortedById, List.foldr_cons] at *
    rw [mem_insertById, ih, List.mem_cons]

lemma insertById_ne_nil (c : StoreConfig) (l : List StoreConfig) :
    insertById c l ≠ [] := by
  cases l with
  | nil => simp [insertById]
  | cons d ds =>
    by_cases h : c.id ≤ d.id <;> simp [insertById, h]

/-- The head of the id-sorted config list is a config of the original list of
minimal id. -/
lemma sortedById_head_min (l : List StoreConfig) (h : l ≠ []) :
    ∃ c, (sortedById l).head? = some c ∧ c ∈ l ∧ ∀ d ∈ l, c.id ≤ d.id := by
  induction l with
  | nil => exact absurd rfl h
  | cons a as ih =>
    cases as with
    | nil =>
      refine ⟨a, ?_, by simp, by simp⟩
      simp [sortedById, insertById]
    | cons b bs =>
      obtain ⟨c, hc, hmem, hmin⟩ := ih (by simp)
      have hrepr : ∃ rest, sortedById (b :: bs) = c :: rest := by
        cases hsort : sortedById (b :: bs) with
        | nil => simp [hsort] at hc
        | cons x xs =>
          simp [hsort] at hc
          exact ⟨xs, by rw [hc]⟩
      obtain ⟨rest, hrest⟩ := hrepr
      have hstep : sortedById (a :: b :: bs) = insertById a (c :: rest) := by
        simp only [sortedById, List.foldr_cons] at hrest ⊢
        rw [hrest]
      by_cases hle : a.id ≤ c.id
      · refine ⟨a, ?_, by simp, ?_⟩
        · rw [hstep]
          simp [insertById, hle]
        · intro d hd
          rcases List.mem_cons.mp hd with rfl | hd'
          · exact le_refl _
          · exact le_trans hle (hmin d hd')
      · refine ⟨c, ?_, List.mem_cons_of_mem a hmem, ?_⟩
        · rw [hstep]
          simp [insertById, hle]
        · intro d hd
          rcases List.mem_cons.mp hd with rfl | hd'
          · exact le_of_lt (lt_of_not_le hle)
          · exact hmin d hd'

/-- Claim C1, counterexample: with configs
`[{code := "default", id := 2}, {code := "default", id := 1}]` and client
scope `""`, `Store.active` returns the record with id 2 (the first match in
list order), not the record with id 1 that the claim requires. -/
theorem C1_counterexample :
    active [⟨"default", 2⟩, ⟨"default", 1⟩] "" = some ⟨"default", 2⟩ ∧
    active [⟨"default", 2⟩, ⟨"default", 1⟩] "" ≠ some ⟨"default", 1⟩ := by
  constructor
  · rfl
  · decide

/-- Claim C1 (amended): `Store.active` resolves the store code from the
client scope (defaulting to "default" for scope "" or "all") and returns the
first record in list order whose code equals that resolved code; only when no
record carries the resolved code, and that code is the default one, does it
return a record of smallest id. -/
theorem C1_active_resolution :
    (∀ (pre : List StoreConfig) (c : StoreConfig) (post : List StoreConfig)
        (scope : String),
       (∀ d ∈ pre, d.code ≠ resolvedStoreCode scope) →
       c.code = resolvedStoreCode scope →
       active (pre ++ c :: post) scope = some c) ∧
    (∀ (configs : List StoreConfig) (scope : String),
       configs ≠ [] →
       (∀ d ∈ configs, d.code ≠ resolvedStoreCode scope) →
       resolvedStoreCode scope = storeCodeDefault →
       ∃ c, active configs scope = some c ∧ c ∈ configs ∧
         ∀ d ∈ configs, c.id ≤ d.id) := by
  constructor
  · intro pre c post scope hpre hc
    have hfind : (pre ++ c :: post).find?
        (fun s => s.code == resolvedStoreCode scope) = some c := by
      induction pre with
      | nil => simp [List.find?, hc]
      | cons d ds ih =>
        have hd : (d.code == resolvedStoreCode scope) = false := by
          simp [hpre d (by simp)]
        simp only [List.cons_append, List.find?, hd]
        exact ih (fun x hx => hpre x (List.mem_cons_of_mem d hx))
    simp [active, hfind]
  · intro configs scope hne hall hdef
    obtain ⟨c, hc, hmem, hmin⟩ := sortedById_head_min configs hne
    have hfind : configs.find?
        (fun s => s.code == resolvedStoreCode scope) = none := by
      rw [List.find?_eq_none]
      intro x hx
      simp [hall x hx]
    refine ⟨c, ?_, hmem, hmin⟩
    rw [hdef] at hfind
    simp [active, hdef, hfind, hc]

/-- A concrete config list with two non-default codes, used by the C1
witness. -/
def customConfigs : List StoreConfig := [⟨"custom", 4⟩, ⟨"other", 3⟩]

/-- Witness for C1: concrete application of both parts of the amended
resolution theorem. -/
theorem C1_active_resolution_witness :
    active ([⟨"x", 5⟩] ++ (⟨"en", 7⟩ : StoreConfig) :: []) "en" =
      some ⟨"en", 7⟩ ∧
    ∃ c : StoreConfig, active customConfigs "" = some c ∧
      c ∈ customConfigs ∧ ∀ d ∈ customConfigs, c.id ≤ d.id := by
  constructor
  · exact C1_active_resolution.1 [⟨"x", 5⟩] ⟨"en", 7⟩ [] "en"
      (by decide) (by decide)
  · exact C1_active_resolution.2 customConfigs ""
      (by decide) (by decide) (by decide)

/- ===================================================================
   Product attributes and their scope partitions
   (clients.py, class Store, lines 563-609)
   =================================================================== -/

/-- Modelled from the spec: the attribute scope constants of the constants
module (not among the analysed sources).  Per the spec glossary an attribute
scope is one of the three visibility tiers global, website, store-view. -/
inductive Scope where
  | global
  | website
  | store
deriving DecidableEq, Repr

/-- A product attribute record, restricted to the fields the Store cache
reads: the `attribute_code` and the visibility `scope`. -/
structure ProductAttribute where
  attribute_code : String
  scope : Scope
deriving DecidableEq, Repr

/-- `Store.store_view_product_attributes` (clients.py lines 568-571) as a
function of the full attribute list: the attributes whose scope is the
store-view scope. -/
def store_view_product_attributes (attrs : List ProductAttribute) :
    List ProductAttribute :=
  attrs.filter (fun attr => attr.scope == Scope.store)

/-- `Store.website_product_attributes` (clients.py lines 573-576): the
attributes whose scope is the website scope. -/
def website_product_attributes (attrs : List ProductAttribute) :
    List ProductAttribute :=
  attrs.filter (fun attr => attr.scope == Scope.website)

/-- `Store.global_product_attributes` (clients.py lines 578-581): the
attributes whose scope is the global scope. -/
def global_product_attributes (attrs : List ProductAttribute) :
    List ProductAttribute :=
  attrs.filter (fun attr => attr.scope == Scope.global)

/-- `Store.website_attribute_codes` (clients.py lines 583-586): the codes of
the website-scoped attributes. -/
def website_attribute_codes (attrs : List ProductAttribute) : List String :=
  (website_product_attributes attrs).map (fun attr => attr.attribute_code)

/-- `Store.filter_website_attrs` (clients.py lines 588-609): the dict
comprehension `{k: v for k, v in attribute_data.items() if k in
self.website_attribute_codes}`.  Python dicts are embedded as association
lists in insertion order; the comprehension builds a new mapping and leaves
its argument untouched, which the pure embedding reflects by construction. -/
def filter_website_attrs {V : Type} (codes : List String)
    (attribute_data : List (String × V)) : List (String × V) :=
  attribute_data.filter (fun kv => codes.contains kv.1)

/- ===================================================================
   The memoized Store cache (clients.py, class Store)
   =================================================================== -/

/-- The memoization state of a `Store` object: one `Option`-valued slot per
`cached_property` of clients.py lines 548-586 (`none` = the property has not
been computed yet / its key is absent from `__dict__`).  The `views` and
`websites` payloads are record lists of the same shape as `configs`. -/
structure StoreState where
  configs : Option (List StoreConfig)
  views : Option (List StoreConfig)
  websites : Option (List StoreConfig)
  all_product_attributes : Option (List ProductAttribute)
  store_view_product_attributes : Option (List ProductAttribute)
  website_product_attributes : Option (List ProductAttribute)
  global_product_attributes : Option (List ProductAttribute)
  website_attribute_codes : Option (List String)
deriving DecidableEq, Repr

/-- `Store.refresh` (clients.py lines 611-617): pops exactly the keys of the
tuple `("configs", "views", "all_product_attributes",
"store_view_product_attributes", "website_product_attributes",
"global_product_attributes", "website_attribute_codes")` from the instance
dict.  The `websites` cached property is not in that tuple and is left
untouched. -/
def refreshStore (s : StoreState) : StoreState :=
  { s with
    configs := none
    views := none
    all_product_attributes := none
    store_view_product_attributes := none
    website_product_attributes := none
    global_product_attributes := none
    website_attribute_codes := none }

/-- `cached_property` access for `Store.all_product_attributes` (clients.py
lines 563-566): return the memoized list when present, otherwise fetch it
(the `fetch` argument stands for the network result of
`client.product_attributes.all_in_memory()`) and memoize it. -/
def get_all_product_attributes (s : StoreState)
    (fetch : List ProductAttribute) : List ProductAttribute × StoreState :=
  match s.all_product_attributes with
  | some v => (v, s)
  | none => (fetch, { s with all_product_attributes := some fetch })

/-- `cached_property` access for `Store.store_view_product_attributes`:
return the memoized partition when present, otherwise compute it from the
(possibly freshly fetched) full attribute list and memoize it. -/
def get_store_view_product_attributes (s : StoreState)
    (fetch : List ProductAttribute) : List ProductAttribute × StoreState :=
  match s.store_view_product_attributes with
  | some v => (v, s)
  | none =>
    let p := get_all_product_attributes s fetch
    let v := store_view_product_attributes p.1
    (v, { p.2 with store_view_product_attributes := some v })

/-- `cached_property` access for `Store.website_product_attributes`. -/
def get_website_product_attributes (s : StoreState)
    (fetch : List ProductAttribute) : List ProductAttribute × StoreState :=
  match s.website_product_attributes with
  | some v => (v, s)
  | none =>
    let p := get_all_product_attributes s fetch
    let v := website_product_attributes p.1
    (v, { p.2 with website_product_attributes := some v })

/-- `cached_property` access for `Store.global_product_attributes`. -/
def get_global_product_attributes (s : StoreState)
    (fetch : List ProductAttribute) : List ProductAttribute × StoreState :=
  match s.global_product_attributes with
  | some v => (v, s)
  | none =>
    let p := get_all_product_attributes s fetch
    let v := global_product_attributes p.1
    (v, { p.2 with global_product_attributes := some v })

/-- A fully memoized Store state used as the C2 failing input: every cached
property, `websites` included, holds a value. -/
def memoizedStore : StoreState :=
  { configs := some [⟨"default", 1⟩]
    views := some [⟨"default", 1⟩]
    websites := some [⟨"base", 1⟩]
    all_product_attributes := some [⟨"price", Scope.website⟩]
    store_view_product_attributes := some []
    website_product_attributes := some [⟨"price", Scope.website⟩]
    global_product_attributes := some []
    website_attribute_codes := some ["price"] }

/-- Claim C2: `Store.refresh` discards the memoized `configs`, `views` and
attribute partitions, but leaves the memoized `websites` entry in place —
the "websites" key is missing from the tuple of keys the method pops, even
though `websites` is a `cached_property` and the docstring promises to clear
all cached properties.  Evaluated at the failing input `memoizedStore`. -/
theorem C2_refresh_keeps_websites :
    (refreshStore memoizedStore).websites = some [⟨"base", 1⟩] ∧
    (refreshStore memoizedStore).websites ≠ none ∧
    (refreshStore memoizedStore).configs = none ∧
    (refreshStore memoizedStore).views = none ∧
    (refreshStore memoizedStore).all_product_attributes = none ∧
    (refreshStore memoizedStore).store_view_product_attributes = none ∧
    (refreshStore memoizedStore).website_product_attributes = none ∧
    (refreshStore memoizedStore).global_product_attributes = none ∧
    (refreshStore memoizedStore).website_attribute_codes = none := by
  refine ⟨rfl, ?_, rfl, rfl, rfl, rfl, rfl, rfl, rfl⟩
  decide

/-- Claim C6: the three scope partitions of any full attribute list are
pairwise disjoint and their union is the full list; and each memoized
partition is returned unchanged by its accessor — independently of what a
fresh fetch would return — so the partitions can only change through an
explicit cache refresh. -/
theorem C6_attribute_partition :
    (∀ (attrs : List ProductAttribute) (a : ProductAttribute),
       (a ∈ attrs ↔
         a ∈ store_view_product_attributes attrs ∨
         a ∈ website_product_attributes attrs ∨
         a ∈ global_product_attributes attrs) ∧
       ¬(a ∈ store_view_product_attributes attrs ∧
         a ∈ website_product_attributes attrs) ∧
       ¬(a ∈ store_view_product_attributes attrs ∧
         a ∈ global_product_attributes attrs) ∧
       ¬(a ∈ website_product_attributes attrs ∧
         a ∈ global_product_attributes attrs)) ∧
    (∀ (s : StoreState) (fetch v : List ProductAttribute),
       (s.store_view_product_attributes = some v →
         get_store_view_product_attributes s fetch = (v, s)) ∧
       (s.website_product_attributes = some v →
         get_website_product_attributes s fetch = (v, s)) ∧
       (s.global_product_attributes = some v →
         get_global_product_attributes s fetch = (v, s))) := by
  constructor
  · intro attrs a
    refine ⟨?_, ?_, ?_, ?_⟩
    · simp only [store_view_product_attributes, website_product_attributes,
        global_product_attributes, List.mem_filter]
      constructor
      · intro ha
        cases hs : a.scope <;> simp [ha, hs]
      · rintro (⟨ha, _⟩ | ⟨ha, _⟩ | ⟨ha, _⟩) <;> exact ha
    · simp only [store_view_product_attributes, website_product_attributes,
        List.mem_filter]
      rintro ⟨⟨_, h1⟩, ⟨_, h2⟩⟩
      simp at h1 h2
      rw [h1] at h2
      exact Scope.noConfusion h2
    · simp only [store_view_product_attributes, global_product_attributes,
        List.mem_filter]
      rintro ⟨⟨_, h1⟩, ⟨_, h2⟩⟩
      simp at h1 h2
      rw [h1] at h2
      exact Scope.noConfusion h2
    · simp only [website_product_attributes, global_product_attributes,
        List.mem_filter]
      rintro ⟨⟨_, h1⟩, ⟨_, h2⟩⟩
      simp at h1 h2
      rw [h1] at h2
      exact Scope.noConfusion h2
  · intro s fetch v
    refine ⟨?_, ?_, ?_⟩ <;> intro hv
    · simp [get_store_view_product_attributes, hv]
    · simp [get_website_product_attributes, hv]
    · simp [get_global_product_attributes, hv]

/-- A two-attribute list (one website-scoped, one store-view-scoped) used by
the C6 and C10 witnesses, matching the spec example. -/
def exampleAttrs : List ProductAttribute :=
  [⟨"price", Scope.website⟩, ⟨"meta_title", Scope.store⟩]

/-- Witness for C6: the partition membership equivalence and a memoized
accessor evaluated at concrete inputs. -/
theorem C6_attribute_partition_witness :
    ((⟨"price", Scope.website⟩ : ProductAttribute) ∈ exampleAttrs ↔
      (⟨"price", Scope.website⟩ : ProductAttribute) ∈
        store_view_product_attributes exampleAttrs ∨
      (⟨"price", Scope.website⟩ : ProductAttribute) ∈
        website_product_attributes exampleAttrs ∨
      (⟨"price", Scope.website⟩ : ProductAttribute) ∈
        global_product_attributes exampleAttrs) ∧
    get_store_view_product_attributes memoizedStore [] = ([], memoizedStore) := by
  constructor
  · exact (C6_attribute_partition.1 exampleAttrs ⟨"price", Scope.website⟩).1
  · exact ((C6_attribute_partition.2 memoizedStore [] []).1 rfl)

/-- Claim C10: for a fixed memoized website-code partition,
`filter_website_attrs` returns a sub-mapping of its argument (a sublist of
the association list: every returned pair occurs in the input, bound to the
same value, and its key is a website-scoped attribute code) and is
idempotent.  The embedding is pure, reflecting that the python dict
comprehension builds a new dict and leaves the argument unmodified. -/
theorem C10_filter_website_attrs :
    ∀ (attrs : List ProductAttribute) (V : Type) (data : List (String × V)),
      (filter_website_attrs (website_attribute_codes attrs) data).Sublist
        data ∧
      (∀ kv ∈ filter_website_attrs (website_attribute_codes attrs) data,
        kv ∈ data ∧ kv.1 ∈ website_attribute_codes attrs) ∧
      filter_website_attrs (website_attribute_codes attrs)
          (filter_website_attrs (website_attribute_codes attrs) data) =
        filter_website_attrs (website_attribute_codes attrs) data := by
  intro attrs V data
  refine ⟨List.filter_sublist data, ?_, ?_⟩
  · intro kv hkv
    rw [filter_website_attrs, List.mem_filter] at hkv
    exact ⟨hkv.1, by simpa using hkv.2⟩
  · simp only [filter_website_attrs, List.filter_filter]
    apply List.filter_congr
    intro kv _
    simp [Bool.and_self]

/-- Witness for C10: the spec example - with `price` website-scoped and
`meta_title` store-view-scoped, the pair `("price", 12)` survives the filter,
occurs in the input and has a website-scoped key. -/
theorem C10_filter_website_attrs_witness :
    ("price", (12 : Int)) ∈ [("price", (12 : Int)), ("meta_title", 99)] ∧
    ("price", (12 : Int)).1 ∈ website_attribute_codes exampleAttrs :=
  (C10_filter_website_attrs exampleAttrs Int
      [("price", 12), ("meta_title", 99)]).2.1
    ("price", 12) (by decide)

/- ===================================================================
   Endpoint routing (clients.py, Client.manager and the
   prerequisite-carrying manager properties, lines 178-314)
   =================================================================== -/

/-- The python `str.lower` method, embedded over the character list (the
core `String.toLower` is extensionally the same function but does not reduce
inside the kernel). -/
def lowerStr (s : String) : String := ⟨s.data.map Char.toLower⟩

/-- The python substring test `pat in chars` on character lists. -/
def charsContain (pat : List Char) : List Char → Bool
  | [] => pat.isEmpty
  | c :: cs => pat.isPrefixOf (c :: cs) || charsContain pat cs

/-- The python substring operator `pat in s` on strings. -/
def strContains (s pat : String) : Bool :=
  charsContain pat.data s.data

/-- The `ProductAttributeOptionManager` built by the
`product_attribute_options` property, represented by the prerequisite
`ProductAttribute` it was constructed from (identified by its code). -/
structure ProductAttributeOptionManager where
  attr_code : String
deriving DecidableEq, Repr

/-- The `MediaEntryManager` built by the `product_media_entries` property,
represented by the prerequisite `Product` it was constructed from
(identified by its sku). -/
structure MediaEntryManager where
  product : String
deriving DecidableEq, Repr

/-- The prerequisite-and-cache state the Client keeps for the two manager
families that need external state (clients.py lines 261-314).  The fields
embed the instance attributes `_product_attribute_options_attribute`,
`_product_attribute_options`, `_media_entries_product` and
`_media_entry_manager`; `none` conflates "attribute never set" with
"attribute set to None", which the python code treats alike on every path
reachable through the public setters. -/
structure RouterState where
  product_attribute_options_attribute : Option String
  cached_product_attribute_options : Option ProductAttributeOptionManager
  media_entries_product : Option String
  cached_media_entry_manager : Option MediaEntryManager
deriving DecidableEq, Repr

/-- The `product_attribute_options_attribute` setter (clients.py lines
267-274): deletes the cached `_product_attribute_options` manager, then
stores the new attribute. -/
def set_product_attribute_options_attribute (s : RouterState)
    (a0 : String) : RouterState :=
  { s with
    cached_product_attribute_options := none
    product_attribute_options_attribute := some a0 }

/-- The `media_entries_product` setter (clients.py lines 295-302): deletes
the cached `_media_entry_manager`, then stores the new product. -/
def set_media_entries_product (s : RouterState) (product : String) :
    RouterState :=
  { s with
    cached_media_entry_manager := none
    media_entries_product := some product }

/-- The `product_attribute_options` property (clients.py lines 276-286).
Python raises `AttributeError` with the quoted message when neither a cached
manager nor the prerequisite attribute is present; here errors are `.error`
values.  Note that the manager is rebuilt from the current prerequisite on
every successful access (the assignment sits outside the `if`), and that the
property performs no network request - it only constructs the manager. -/
def product_attribute_options (s : RouterState) :
    Except String (ProductAttributeOptionManager × RouterState) :=
  if s.cached_product_attribute_options = none ∧
      s.product_attribute_options_attribute = none then
    .error "Attribute was not set for this manager to work. Please set product_attribute_options_attribute first."
  else
    match s.product_attribute_options_attribute with
    | none =>
      -- cache present but prerequisite absent: the assignment line reads
      -- the missing attribute, a bare AttributeError naming it
      .error "_product_attribute_options_attribute"
    | some a0 =>
      let m : ProductAttributeOptionManager := ⟨a0⟩
      .ok (m, { s with cached_product_attribute_options := some m })

/-- The `product_media_entries` property (clients.py lines 304-314), the
media-entry mirror image of `product_attribute_options`. -/
def product_media_entries (s : RouterState) :
    Except String (MediaEntryManager × RouterState) :=
  if s.cached_media_entry_manager = none ∧
      s.media_entries_product = none then
    .error "Product was not set for this manager to work. Please set media_entries_product first."
  else
    match s.media_entries_product with
    | none => .error "_media_entries_product"
    | some product =>
      let m : MediaEntryManager := ⟨product⟩
      .ok (m, { s with cached_media_entry_manager := some m })

/-- The resource-handler families `Client.manager` can resolve to. -/
inductive Handler where
  | orders
  | orderItems
  | invoices
  | taxes
  | categories
  | products
  | productAttributes
  | attributeSets
  | shipments
  | customers
  | attributeOptions (m : ProductAttributeOptionManager)
  | mediaEntries (m : MediaEntryManager)
  | generic (endpoint : String)
deriving DecidableEq, Repr

/-- `Client.manager` (clients.py lines 178-213): the ordered,
case-insensitive endpoint dispatch table.  Exact string equality tests come
first; then the substring tests for the attribute-options family (which
requires both `"products/attributes"` and `"/options"` to occur in the
lowercased endpoint) and the media-entry family; any other endpoint gets a
generic `Manager`. -/
def manager (s : RouterState) (endpoint : String) :
    Except String (Handler × RouterState) :=
  let e := lowerStr endpoint
  if e = "orders" then .ok (.orders, s)
  else if e = "orders/items" then .ok (.orderItems, s)
  else if e = "invoices" then .ok (.invoices, s)
  else if e = "taxes" then .ok (.taxes, s)
  else if e = "categories" then .ok (.categories, s)
  else if e = "products" then .ok (.products, s)
  else if e = "products/attributes" then .ok (.productAttributes, s)
  else if e = "products/attribute-sets" ∨ e = "products/attribute-sets/list"
    then .ok (.attributeSets, s)
  else if e = "shipment" ∨ e = "shipments" then .ok (.shipments, s)
  else if e = "customers" ∨ e = "customers/search" then .ok (.customers, s)
  else if strContains e "products/attributes" && strContains e "/options" then
    match product_attribute_options s with
    | .error msg => .error msg
    | .ok p => .ok (.attributeOptions p.1, p.2)
  else if strContains e "products/" && strContains e "/media" then
    match product_media_entries s with
    | .error msg => .error msg
    | .ok p => .ok (.mediaEntries p.1, p.2)
  else .ok (.generic endpoint, s)

/-- Whether a routing result resolved to the attribute-options family. -/
def isAttributeOptionsResult
    (r : Except String (Handler × RouterState)) : Bool :=
  match r with
  | .ok (.attributeOptions _, _) => true
  | _ => false

/-- A router state with both prerequisites set, used in the C5
counterexample (so the options branch could not fail for a missing
prerequisite - routing alone decides the result). -/
def readyRouter : RouterState :=
  ⟨some "color", none, some "sku1", none⟩

/-- Claim C5, counterexample: the endpoint `"products/attr123/options"` does
not contain the substring `"products/attributes"`, so none of the specific
branches of `Client.manager` fires and the endpoint resolves to the generic
handler, not the attribute-options handler - even with the prerequisite
attribute set. -/
theorem C5_counterexample :
    manager readyRouter "products/attr123/options" =
      .ok (.generic "products/attr123/options", readyRouter) ∧
    isAttributeOptionsResult
      (manager readyRouter "products/attr123/options") = false ∧
    strContains "products/attr123/options" "products/attributes" = false := by
  refine ⟨rfl, rfl, rfl⟩

lemma strContains_ne_of_fixed {e fixed pat : String}
    (h : strContains e pat = true) (hf : strContains fixed pat = false) :
    e ≠ fixed := by
  intro hef
  rw [hef, hf] at h
  exact Bool.false_ne_true h

/-- Claim C5 (amended): any endpoint whose lowercasing contains both
`"products/attributes"` and `"/options"` as substrings resolves to the
attribute-options handler built from the currently set prerequisite
attribute; the claim's endpoint `"products/attr123/options"` lacks the
`"products/attributes"` substring and resolves to the generic handler
instead (see the counterexample). -/
theorem C5_options_routing :
    ∀ (s : RouterState) (endpoint a0 : String),
      strContains (lowerStr endpoint) "products/attributes" = true →
      strContains (lowerStr endpoint) "/options" = true →
      s.product_attribute_options_attribute = some a0 →
      manager s endpoint =
        .ok (.attributeOptions ⟨a0⟩,
          { s with cached_product_attribute_options := some ⟨a0⟩ }) := by
  intro s endpoint a0 hpa hop hattr
  have n1 : lowerStr endpoint ≠ "orders" :=
    strContains_ne_of_fixed hop (by decide)
  have n2 : lowerStr endpoint ≠ "orders/items" :=
    strContains_ne_of_fixed hop (by decide)
  have n3 : lowerStr endpoint ≠ "invoices" :=
    strContains_ne_of_fixed hop (by decide)
  have n4 : lowerStr endpoint ≠ "taxes" :=
    strContains_ne_of_fixed hop (by decide)
  have n5 : lowerStr endpoint ≠ "categories" :=
    strContains_ne_of_fixed hop (by decide)
  have n6 : lowerStr endpoint ≠ "products" :=
    strContains_ne_of_fixed hop (by decide)
  have n7 : lowerStr endpoint ≠ "products/attributes" :=
    strContains_ne_of_fixed hop (by decide)
  have n8 : lowerStr endpoint ≠ "products/attribute-sets" :=
    strContains_ne_of_fixed hop (by decide)
  have n9 : lowerStr endpoint ≠ "products/attribute-sets/list" :=
    strContains_ne_of_fixed hop (by decide)
  have n10 : lowerStr endpoint ≠ "shipment" :=
    strContains_ne_of_fixed hop (by decide)
  have n11 : lowerStr endpoint ≠ "shipments" :=
    strContains_ne_of_fixed hop (by decide)
  have n12 : lowerStr endpoint ≠ "customers" :=
    strContains_ne_of_fixed hop (by decide)
  have n13 : lowerStr endpoint ≠ "customers/search" :=
    strContains_ne_of_fixed hop (by decide)
  have hcond : ¬(lowerStr endpoint = "products/attribute-sets" ∨
      lowerStr endpoint = "products/attribute-sets/list") := by
    rintro (h | h)
    · exact n8 h
    · exact n9 h
  have hship : ¬(lowerStr endpoint = "shipment" ∨
      lowerStr endpoint = "shipments") := by
    rintro (h | h)
    · exact n10 h
    · exact n11 h
  have hcust : ¬(lowerStr endpoint = "customers" ∨
      lowerStr endpoint = "customers/search") := by
    rintro (h | h)
    · exact n12 h
    · exact n13 h
  have hopt : product_attribute_options s =
      .ok (⟨a0⟩,
        { s with cached_product_attribute_options := some ⟨a0⟩ }) := by
    rw [product_attribute_options]
    rw [if_neg (by simp [hattr])]
    rw [hattr]
  simp only [manager]
  rw [if_neg n1, if_neg n2, if_neg n3, if_neg n4, if_neg n5, if_neg n6,
    if_neg n7, if_neg hcond, if_neg hship, if_neg hcust,
    if_pos (by simp [hpa, hop]), hopt]

/-- Witness for C5: the theorem applied at a well-formed attribute-options
endpoint with the prerequisite set. -/
theorem C5_options_routing_witness :
    manager readyRouter "products/attributes/color/options" =
      .ok (.attributeOptions ⟨"color"⟩,
        { readyRouter with
            cached_product_attribute_options := some ⟨"color"⟩ }) :=
  C5_options_routing readyRouter "products/attributes/color/options" "color"
    (by decide) (by decide) rfl

/-- Claim C7: resolving the attribute-options (resp. media-entry) manager
while its prerequisite is unset fails with the `AttributeError` message
naming the missing prerequisite, and no request is built (the embedded
property touches no network stream); assigning a new prerequisite discards
the previously built manager, and the next resolution returns a manager
constructed from the new prerequisite. -/
theorem C7_prerequisite_handling :
    (∀ s : RouterState,
       s.cached_product_attribute_options = none →
       s.product_attribute_options_attribute = none →
       product_attribute_options s =
         .error "Attribute was not set for this manager to work. Please set product_attribute_options_attribute first.") ∧
    (∀ (s : RouterState) (a : String),
       (set_product_attribute_options_attribute s a).cached_product_attribute_options
           = none ∧
       product_attribute_options (set_product_attribute_options_attribute s a) =
         .ok (⟨a⟩,
           { set_product_attribute_options_attribute s a with
               cached_product_attribute_options := some ⟨a⟩ })) ∧
    (∀ s : RouterState,
       s.cached_media_entry_manager = none →
       s.media_entries_product = none →
       product_media_entries s =
         .error "Product was not set for this manager to work. Please set media_entries_product first.") ∧
    (∀ (s : RouterState) (p : String),
       (set_media_entries_product s p).cached_media_entry_manager = none ∧
       product_media_entries (set_media_entries_product s p) =
         .ok (⟨p⟩,
           { set_media_entries_product s p with
               cached_media_entry_manager := some ⟨p⟩ })) := by
  refine ⟨?_, ?_, ?_, ?_⟩
  · intro s hc ha
    simp [product_attribute_options, hc, ha]
  · intro s a
    refine ⟨rfl, ?_⟩
    rw [product_attribute_options]
    rw [if_neg (by simp [set_product_attribute_options_attribute])]
    rfl
  · intro s hc hp
    simp [product_media_entries, hc, hp]
  · intro s p
    refine ⟨rfl, ?_⟩
    rw [product_media_entries]
    rw [if_neg (by simp [set_media_entries_product])]
    rfl

/-- A router state with nothing set, used by the C7 witness. -/
def emptyRouter : RouterState := ⟨none, none, none, none⟩

/-- Witness for C7: the missing-prerequisite error and the
rebuild-after-reassignment behaviour at concrete inputs (the prerequisite is
changed from "color" to "size" and the resolved manager reflects "size"). -/
theorem C7_prerequisite_handling_witness :
    product_attribute_options emptyRouter =
      .error "Attribute was not set for this manager to work. Please set product_attribute_options_attribute first." ∧
    product_attribute_options
        (set_product_attribute_options_attribute
          (set_product_attribute_options_attribute emptyRouter "color")
          "size") =
      .ok (⟨"size"⟩,
        { set_product_attribute_options_attribute
            (set_product_attribute_options_attribute emptyRouter "color")
            "size" with
            cached_product_attribute_options := some ⟨"size"⟩ }) := by
  constructor
  · exact C7_prerequisite_handling.1 emptyRouter rfl rfl
  · exact (C7_prerequisite_handling.2.1
      (set_product_attribute_options_attribute emptyRouter "color")
      "size").2

/- ===================================================================
   The authenticated request runtime
   (clients.py, Client.authenticate / validate / request / token,
   lines 321-476)
   =================================================================== -/

/-- Modelled from the spec: the AuthenticationMethod constants of the
constants module (not among the analysed sources); the spec states that
exactly one of the password method and the api-key (token) method is active
per client. -/
inductive AuthMethod where
  | password
  | token
deriving DecidableEq, Repr

/-- The mutable client fields the authentication/request runtime reads and
writes: `ACCESS_TOKEN` (`none` conflating "attribute unset" and `None`), the
retry counter, the credentials, the method, and the url ingredients. -/
structure ClientState where
  domain : String
  scope : String
  username : Option String
  password : Option String
  api_key : Option String
  authentication_method : AuthMethod
  access_token : Option String
  authentication_retries : Nat
deriving DecidableEq, Repr

/-- One network response: its HTTP status and its decoded body (for the
login endpoint, the body is the returned token string). -/
structure Resp where
  status : Nat
  body : String
deriving DecidableEq, Repr

/-- `response.ok` of the requests library: status below 400. -/
def respOk (r : Resp) : Bool := r.status < 400

/-- A JSON request payload (a python dict), as an association list. -/
abbrev Payload := List (String × String)

/-- Python truthiness of the `payload` argument: `None` and the empty dict
are falsy (`if payload:` in clients.py line 421). -/
def payloadTruthy : Option Payload → Bool
  | none => false
  | some l => !l.isEmpty

/-- Python truthiness test `not self.ACCESS_TOKEN` (clients.py line 474):
a missing/None token and the empty string are falsy. -/
def falsyToken : Option String → Bool
  | none => true
  | some t => t == ""

/-- The string the token property returns / the Authorization header embeds
(`None` is formatted as the string "None" by the python f-string). -/
def tokenString : Option String → String
  | some t => t
  | none => "None"

/-- The python `str.upper` method, over the character list (the core
`String.toUpper` does not reduce inside the kernel). -/
def upperStr (s : String) : String := ⟨s.data.map Char.toUpper⟩

/-- Observable events of one run: a session send (with the request method,
url, payload argument and the status the stream answered), the login POST of
`authenticate` (with `response.ok`), and the "Attempting to re-authenticate"
step of the 401 handler. -/
inductive Ev where
  | send (method url : String) (payload : Option Payload) (status : Nat)
  | loginPost (ok : Bool)
  | reauth
deriving DecidableEq, Repr

/-- Python exceptions of the runtime.  `AuthenticationError` and the
response it carries come from the exceptions module (not among the analysed
sources), so errors are identified here by kind and message only.
`outOfFuel` marks a run longer than the fuel bound; `netExhausted` marks a
run that needs more network responses than the finite stream supplies. -/
inductive Err where
  | authenticationError (msg : String)
  | valueError (msg : String)
  | outOfFuel
  | netExhausted
deriving DecidableEq, Repr

/-- The result of one run: the python return value or exception, the client
state at return/raise time, the unconsumed tail of the response stream, and
the emitted events in order. -/
structure RunResult (α : Type) where
  out : Except Err α
  state : ClientState
  net : List Resp
  events : List Ev

/-- `Client.BASE_URL` (clients.py line 82) of a non-local client. -/
def base_url (s : ClientState) : String :=
  "https://" ++ s.domain ++ "/rest/V1/"

/-- `Client.url_for` (clients.py lines 151-176) called without an explicit
scope argument - the only way the runtime itself calls it: the
scope-qualified url when the client scope is truthy, the base url
otherwise. -/
def url_for (s : ClientState) (endpoint : String) : String :=
  if s.scope = "" then base_url s ++ endpoint
  else "https://" ++ s.domain ++ "/rest/" ++ s.scope ++ "/V1/" ++ endpoint

mutual

/-- The `Client.token` property (clients.py lines 471-476): authenticates
first when the stored `ACCESS_TOKEN` is falsy, then returns the stored
token.  The fuel argument of the runtime functions bounds the call depth;
every terminating python run is reproduced verbatim by any sufficiently
large fuel. -/
def tokenProp (fuel : Nat) (s : ClientState) (net : List Resp) :
    RunResult String :=
  if falsyToken s.access_token then
    match fuel with
    | 0 => ⟨.error .outOfFuel, s, net, []⟩
    | f + 1 =>
      let a := authenticate f s net
      match a.out with
      | .error e => ⟨.error e, a.state, a.net, a.events⟩
      | .ok _ =>
        ⟨.ok (tokenString a.state.access_token), a.state, a.net, a.events⟩
  else ⟨.ok (tokenString s.access_token), s, net, []⟩

/-- `Client.authenticate` (clients.py lines 351-389): the retry-counter
guard, the counter increment, the credential precondition, then either the
api-key shortcut or the login POST, followed in every non-raising path by
the `validate()` call whose `AuthenticationError` is re-raised as
"Token validation failed"; on full success the counter is reset to 0. -/
def authenticate (fuel : Nat) (s : ClientState) (net : List Resp) :
    RunResult Bool :=
  match fuel with
  | 0 => ⟨.error .outOfFuel, s, net, []⟩
  | f + 1 =>
    if s.authentication_retries = 3 then
      ⟨.error (.valueError "Max attends of authentication attempts exceeded"),
       s, net, []⟩
    else
      let s1 :=
        { s with authentication_retries := s.authentication_retries + 1 }
      if s1.password = none ∧ s1.api_key = none then
        ⟨.error (.valueError "Ether password or api key must be provided."),
         s1, net, []⟩
      else
        match s1.authentication_method with
        | .token =>
          -- ACCESS_TOKEN = self.api_key - no network call for the login step
          let s2 := { s1 with access_token := s1.api_key }
          let v := validate f s2 net
          match v.out with
          | .ok _ =>
            ⟨.ok true, { v.state with authentication_retries := 0 }, v.net,
             v.events⟩
          | .error (.authenticationError _) =>
            ⟨.error (.authenticationError "Token validation failed"),
             v.state, v.net, v.events⟩
          | .error e => ⟨.error e, v.state, v.net, v.events⟩
        | .password =>
          match net with
          | [] => ⟨.error .netExhausted, s1, [], []⟩
          | r :: rest =>
            if respOk r then
              let s2 := { s1 with access_token := some r.body }
              let v := validate f s2 rest
              match v.out with
              | .ok _ =>
                ⟨.ok true, { v.state with authentication_retries := 0 },
                 v.net, Ev.loginPost true :: v.events⟩
              | .error (.authenticationError _) =>
                ⟨.error (.authenticationError "Token validation failed"),
                 v.state, v.net, Ev.loginPost true :: v.events⟩
              | .error e => ⟨.error e, v.state, v.net,
                  Ev.loginPost true :: v.events⟩
            else
              ⟨.error (.authenticationError "login request failed"), s1,
               rest, [Ev.loginPost false]⟩

/-- `Client.validate` (clients.py lines 391-404): an authorized GET on
`store/websites`; 200 validates the token, anything else raises
`AuthenticationError`. -/
def validate (fuel : Nat) (s : ClientState) (net : List Resp) :
    RunResult Bool :=
  match fuel with
  | 0 => ⟨.error .outOfFuel, s, net, []⟩
  | f + 1 =>
    let r := request f s net "GET" (url_for s "store/websites") none
    match r.out with
    | .ok resp =>
      if resp.status = 200 then ⟨.ok true, r.state, r.net, r.events⟩
      else
        ⟨.error (.authenticationError "Token validation failed for user"),
         r.state, r.net, r.events⟩
    | .error e => ⟨.error e, r.state, r.net, r.events⟩

/-- `Client.request` (clients.py lines 406-439): method normalization and
the method/payload preconditions (both checked before any header - and hence
any token - is computed), the session send whose headers may trigger a first
authentication through the token property, the 401 handler that
re-authenticates and re-issues the identical request, and the pass-through
of every non-401 response.  The `jsondecode_error_retry` decorator of the
python source only retries JSON decoding of response bodies and is outside
this model; the send event records the arguments of the python call. -/
def request (fuel : Nat) (s : ClientState) (net : List Resp)
    (method url : String) (payload : Option Payload) : RunResult Resp :=
  match fuel with
  | 0 => ⟨.error .outOfFuel, s, net, []⟩
  | f + 1 =>
    let mu := upperStr method
    let methodCheck : Except Err Unit :=
      if mu = "GET" ∨ mu = "DELETE" then .ok ()
      else if mu = "POST" ∨ mu = "PUT" then
        if payloadTruthy payload then .ok ()
        else .error (.valueError "Must provide a non-empty payload")
      else .error (.valueError "Invalid request method provided")
    match methodCheck with
    | .error e => ⟨.error e, s, net, []⟩
    | .ok _ =>
      let tk := tokenProp f s net
      match tk.out with
      | .error e => ⟨.error e, tk.state, tk.net, tk.events⟩
      | .ok _ =>
        match tk.net with
        | [] => ⟨.error .netExhausted, tk.state, [], tk.events⟩
        | r :: rest =>
          if r.status = 401 then
            let a := authenticate f tk.state rest
            match a.out with
            | .error e =>
              ⟨.error e, a.state, a.net,
               tk.events ++ Ev.send mu url payload r.status ::
                 Ev.reauth :: a.events⟩
            | .ok _ =>
              let rep := request f a.state a.net mu url payload
              ⟨rep.out, rep.state, rep.net,
               tk.events ++ Ev.send mu url payload r.status ::
                 Ev.reauth :: (a.events ++ rep.events)⟩
          else
            ⟨.ok r, tk.state, rest,
             tk.events ++ [Ev.send mu url payload r.status]⟩

end

lemma tokenProp_present (fuel : Nat) (s : ClientState) (net : List Resp)
    (htok : falsyToken s.access_token = false) :
    tokenProp fuel s net = ⟨.ok (tokenString s.access_token), s, net, []⟩ := by
  rw [tokenProp.eq_def]
  simp [htok]

/-- One fully successful password authentication: login ok with a non-empty
token, validation 200; the token is stored and the counter reset. -/
lemma authenticate_full_success (f : Nat) (s : ClientState) (r v : Resp)
    (rest : List Resp)
    (h3 : s.authentication_retries ≠ 3)
    (hcred : ¬(s.password = none ∧ s.api_key = none))
    (hmeth : s.authentication_method = .password)
    (hr : respOk r = true) (hbody : r.body ≠ "") (hv : v.status = 200) :
    authenticate (f + 3) s (r :: v :: rest) =
      ⟨.ok true,
       { s with access_token := some r.body, authentication_retries := 0 },
       rest,
       [Ev.loginPost true,
        Ev.send "GET" (url_for s "store/websites") none 200]⟩ := by
  have hGET : upperStr "GET" = "GET" := rfl
  have hr' : r.status < 400 := by simpa [respOk] using hr
  simp [authenticate, validate, request, tokenProp.eq_def, h3, hcred, hmeth,
    hr, hr', hbody, hv, hGET, url_for, base_url, falsyToken, payloadTruthy,
    tokenString, respOk]

/-- One password authentication whose login POST fails: the counter stays
incremented and the error is an `AuthenticationError`. -/
lemma authenticate_login_failure (f : Nat) (s : ClientState) (r : Resp)
    (rest : List Resp)
    (h3 : s.authentication_retries ≠ 3)
    (hcred : ¬(s.password = none ∧ s.api_key = none))
    (hmeth : s.authentication_method = .password)
    (hr : respOk r = false) :
    authenticate (f + 1) s (r :: rest) =
      ⟨.error (.authenticationError "login request failed"),
       { s with authentication_retries := s.authentication_retries + 1 },
       rest, [Ev.loginPost false]⟩ := by
  simp [authenticate, h3, hcred, hmeth, hr]

/-- One password authentication whose login succeeds but whose validation
call answers a non-200, non-401 status: `AuthenticationError`, with the
fresh token left stored and the counter left incremented. -/
lemma authenticate_validation_failure (f : Nat) (s : ClientState)
    (r v : Resp) (rest : List Resp)
    (h3 : s.authentication_retries ≠ 3)
    (hcred : ¬(s.password = none ∧ s.api_key = none))
    (hmeth : s.authentication_method = .password)
    (hr : respOk r = true) (hbody : r.body ≠ "")
    (hv200 : v.status ≠ 200) (hv401 : v.status ≠ 401) :
    authenticate (f + 3) s (r :: v :: rest) =
      ⟨.error (.authenticationError "Token validation failed"),
       { s with access_token := some r.body,
                authentication_retries := s.authentication_retries + 1 },
       rest,
       [Ev.loginPost true,
        Ev.send "GET" (url_for s "store/websites") none v.status]⟩ := by
  have hGET : upperStr "GET" = "GET" := rfl
  have hr' : r.status < 400 := by simpa [respOk] using hr
  simp [authenticate, validate, request, tokenProp.eq_def, h3, hcred, hmeth,
    hr, hr', hbody, hv200, hv401, hGET, url_for, base_url, falsyToken,
    payloadTruthy, tokenString, respOk]

/-- One step of the 401 handler of `Client.request` for an authorized GET,
with the outcome of the embedded re-authentication supplied as a
hypothesis: on success the identical request is replayed on the rest of the
stream. -/
lemma request_get_401_replay (f : Nat) (s s' : ClientState) (r : Resp)
    (rest net' : List Resp) (url : String) (evs : List Ev)
    (htok : falsyToken s.access_token = false)
    (hr : r.status = 401)
    (ha : authenticate f s rest = ⟨.ok true, s', net', evs⟩) :
    request (f + 1) s (r :: rest) "GET" url none =
      ⟨(request f s' net' "GET" url none).out,
       (request f s' net' "GET" url none).state,
       (request f s' net' "GET" url none).net,
       Ev.send "GET" url none 401 :: Ev.reauth ::
         (evs ++ (request f s' net' "GET" url none).events)⟩ := by
  have hGET : upperStr "GET" = "GET" := rfl
  conv_lhs => rw [request]
  rw [tokenProp_present f s (r :: rest) htok]
  simp only [hGET, hr, ha]
  simp

/-- One step of the 401 handler of `Client.request` for an authorized GET
when the embedded re-authentication fails: the error propagates and no
replay happens. -/
lemma request_get_401_fail (f : Nat) (s s' : ClientState) (r : Resp)
    (rest net' : List Resp) (url : String) (evs : List Ev) (e : Err)
    (htok : falsyToken s.access_token = false)
    (hr : r.status = 401)
    (ha : authenticate f s rest = ⟨.error e, s', net', evs⟩) :
    request (f + 1) s (r :: rest) "GET" url none =
      ⟨.error e, s', net',
       Ev.send "GET" url none 401 :: Ev.reauth :: evs⟩ := by
  have hGET : upperStr "GET" = "GET" := rfl
  conv_lhs => rw [request]
  rw [tokenProp_present f s (r :: rest) htok]
  simp only [hGET, hr, ha]
  simp

/-- Number of re-authentication steps in an event list. -/
def countReauth (evs : List Ev) : Nat :=
  (evs.filter (fun e => match e with | Ev.reauth => true | _ => false)).length

/-- Number of session sends to a given url in an event list. -/
def countSendsTo (url : String) (evs : List Ev) : Nat :=
  (evs.filter (fun e =>
    match e with | Ev.send _ u _ _ => u == url | _ => false)).length

/-- Claim C8: when both the password and the api key are unset,
`authenticate()` raises a `ValueError` - the missing-credentials error, or
the exhausted-retries error when the counter already stands at 3; both
checks precede any network interaction, so no event is emitted and the
response stream is left untouched. -/
theorem C8_missing_credentials :
    ∀ (fuel : Nat) (s : ClientState) (net : List Resp),
      0 < fuel → s.password = none → s.api_key = none →
      (authenticate fuel s net).out =
        .error (.valueError
          (if s.authentication_retries = 3 then
            "Max attends of authentication attempts exceeded"
          else "Ether password or api key must be provided.")) ∧
      (authenticate fuel s net).events = [] ∧
      (authenticate fuel s net).net = net := by
  intro fuel s net hf hp hk
  obtain ⟨f, rfl⟩ : ∃ f, fuel = f + 1 := ⟨fuel - 1, by omega⟩
  by_cases h3 : s.authentication_retries = 3
  · simp [authenticate, h3]
  · simp [authenticate, h3, hp, hk]

/-- A client with neither password nor api key, for the C8 witness. -/
def noCredState : ClientState :=
  ⟨"m.test", "", some "admin", none, none, .password, none, 0⟩

/-- Witness for C8 at a concrete credential-less client: no event, stream
untouched. -/
theorem C8_missing_credentials_witness :
    (authenticate 1 noCredState []).events = [] ∧
    (authenticate 1 noCredState []).net = [] :=
  ⟨(C8_missing_credentials 1 noCredState [] (by decide) rfl rfl).2.1,
   (C8_missing_credentials 1 noCredState [] (by decide) rfl rfl).2.2⟩

/-- Claim C9: the retry counter discipline of `authenticate()`.  (i) A call
entered with the counter at 3 - i.e. after three failed attempts, since only
failures leave the counter positive - raises the exhausted-retries
`ValueError` immediately: no network event, stream and state untouched (the
guard precedes the increment, so this fail-fast call leaves the counter at
3).  (ii) An attempt whose login POST fails leaves the counter incremented
by one.  (iii) An attempt that fully succeeds (login ok and validation 200)
resets the counter to 0. -/
theorem C9_retry_counter :
    (∀ (fuel : Nat) (s : ClientState) (net : List Resp),
       0 < fuel → s.authentication_retries = 3 →
       (authenticate fuel s net).out =
         .error (.valueError "Max attends of authentication attempts exceeded") ∧
       (authenticate fuel s net).state = s ∧
       (authenticate fuel s net).net = net ∧
       (authenticate fuel s net).events = []) ∧
    (∀ (f : Nat) (s : ClientState) (r : Resp) (rest : List Resp),
       s.authentication_retries ≠ 3 →
       ¬(s.password = none ∧ s.api_key = none) →
       s.authentication_method = .password →
       respOk r = false →
       authenticate (f + 1) s (r :: rest) =
         ⟨.error (.authenticationError "login request failed"),
          { s with authentication_retries := s.authentication_retries + 1 },
          rest, [Ev.loginPost false]⟩) ∧
    (∀ (f : Nat) (s : ClientState) (r v : Resp) (rest : List Resp),
       s.authentication_retries ≠ 3 →
       ¬(s.password = none ∧ s.api_key = none) →
       s.authentication_method = .password →
       respOk r = true → r.body ≠ "" → v.status = 200 →
       authenticate (f + 3) s (r :: v :: rest) =
         ⟨.ok true,
          { s with access_token := some r.body, authentication_retries := 0 },
          rest,
          [Ev.loginPost true,
           Ev.send "GET" (url_for s "store/websites") none 200]⟩) := by
  refine ⟨?_, ?_, ?_⟩
  · intro fuel s net hf h3
    obtain ⟨f, rfl⟩ : ∃ f, fuel = f + 1 := ⟨fuel - 1, by omega⟩
    simp [authenticate, h3]
  · intro f s r rest h3 hcred hmeth hr
    exact authenticate_login_failure f s r rest h3 hcred hmeth hr
  · intro f s r v rest h3 hcred hmeth hr hbody hv
    exact authenticate_full_success f s r v rest h3 hcred hmeth hr hbody hv

/-- A client with the counter exhausted, for the C9 witness. -/
def exhaustedState : ClientState :=
  ⟨"m.test", "", some "admin", some "pw", none, .password, none, 3⟩

/-- A fresh password-credentialed client with no token yet. -/
def pwState : ClientState :=
  ⟨"m.test", "", some "admin", some "pw", none, .password, none, 0⟩

/-- Witness for C9 at concrete inputs: the fail-fast exhausted call and a
failed-login increment. -/
theorem C9_retry_counter_witness :
    (authenticate 7 exhaustedState [⟨200, "tok"⟩]).out =
      .error (.valueError "Max attends of authentication attempts exceeded") ∧
    (authenticate 7 exhaustedState [⟨200, "tok"⟩]).net = [⟨200, "tok"⟩] ∧
    authenticate 1 pwState [⟨401, ""⟩] =
      ⟨.error (.authenticationError "login request failed"),
       { pwState with authentication_retries := 1 },
       [], [Ev.loginPost false]⟩ := by
  refine ⟨?_, ?_, ?_⟩
  · exact (C9_retry_counter.1 7 exhaustedState [⟨200, "tok"⟩]
      (by decide) rfl).1
  · exact (C9_retry_counter.1 7 exhaustedState [⟨200, "tok"⟩]
      (by decide) rfl).2.2.1
  · exact C9_retry_counter.2.1 0 pwState ⟨401, ""⟩ []
      (by decide) (by simp [pwState]) rfl (by decide)

/-- The response stream of the C3 counterexample: the login POST succeeds
and returns the token "tok1"; the follow-up validation GET answers 403. -/
def c3Net : List Resp := [⟨200, "tok1"⟩, ⟨403, ""⟩]

/-- Claim C3, counterexample: on a run whose login succeeds and whose
validation call returns 403 (non-200), `authenticate()` does raise
`AuthenticationError` - but the token obtained from the login is left stored
in `ACCESS_TOKEN` (it was assigned before validation and is never cleared),
it is not falsy, and a subsequent token-property access returns it without
re-authenticating: the stored token remains the one subsequent calls
present, contradicting the claim that it is not left usable. -/
theorem C3_counterexample :
    (authenticate 9 pwState c3Net).out =
      .error (.authenticationError "Token validation failed") ∧
    (authenticate 9 pwState c3Net).state.access_token = some "tok1" ∧
    falsyToken (authenticate 9 pwState c3Net).state.access_token = false ∧
    (tokenProp 5 (authenticate 9 pwState c3Net).state []).out = .ok "tok1" ∧
    (tokenProp 5 (authenticate 9 pwState c3Net).state []).events = [] ∧
    (authenticate 9 pwState c3Net).state.authentication_retries = 1 := by
  exact ⟨rfl, rfl, rfl, rfl, rfl, rfl⟩

/-- Claim C3 (amended): when the login succeeds and the follow-up validation
call returns a non-200, non-401 status, `authenticate()` raises
`AuthenticationError` - but the token returned by the login stays stored in
`ACCESS_TOKEN` (so subsequent calls will present it), and the retry counter
is left incremented, not reset: the client does not record the
authentication as successful, yet the token is left usable. -/
theorem C3_validation_failure_state :
    ∀ (f : Nat) (s : ClientState) (r v : Resp) (rest : List Resp),
      s.authentication_retries ≠ 3 →
      ¬(s.password = none ∧ s.api_key = none) →
      s.authentication_method = .password →
      respOk r = true → r.body ≠ "" →
      v.status ≠ 200 → v.status ≠ 401 →
      authenticate (f + 3) s (r :: v :: rest) =
        ⟨.error (.authenticationError "Token validation failed"),
         { s with access_token := some r.body,
                  authentication_retries := s.authentication_retries + 1 },
         rest,
         [Ev.loginPost true,
          Ev.send "GET" (url_for s "store/websites") none v.status]⟩ := by
  intro f s r v rest h3 hcred hmeth hr hbody hv200 hv401
  exact authenticate_validation_failure f s r v rest h3 hcred hmeth hr hbody
    hv200 hv401

/-- Witness for C3's amended theorem at the counterexample's concrete
inputs. -/
theorem C3_validation_failure_state_witness :
    authenticate (5 + 3) pwState (⟨200, "tok1"⟩ :: ⟨403, ""⟩ :: []) =
      ⟨.error (.authenticationError "Token validation failed"),
       { pwState with access_token := some "tok1",
                      authentication_retries := 1 },
       [],
       [Ev.loginPost true,
        Ev.send "GET" (url_for pwState "store/websites") none 403]⟩ :=
  C3_validation_failure_state 5 pwState ⟨200, "tok1"⟩ ⟨403, ""⟩ []
    (by decide) (by simp [pwState]) rfl (by decide) (by decide)
    (by decide) (by decide)

/-- A client holding a valid-looking token, for the C4 counterexample. -/
def tokState : ClientState :=
  ⟨"m.test", "", some "admin", some "pw", none, .password, some "t0", 0⟩

/-- The response stream of the C4 counterexample: the original request
answers 401; a full re-authentication succeeds (login 200/"t1", validation
200); the replay answers 401 again; a second full re-authentication succeeds
(login 200/"t2", validation 200); the second replay answers 200. -/
def c4Net : List Resp :=
  [⟨401, ""⟩, ⟨200, "t1"⟩, ⟨200, ""⟩,
   ⟨401, ""⟩, ⟨200, "t2"⟩, ⟨200, ""⟩, ⟨200, "result"⟩]

/-- The url of the C4 counterexample's original request. -/
def c4Url : String := "https://m.test/rest/V1/orders/1"

/-- Claim C4, counterexample: on a stream where the replay of a 401-answered
request is answered 401 again while re-authentication keeps succeeding, the
dispatcher performs a second re-authentication/replay cycle for the same
original request - two re-authentication events, three sends of the original
request - and finally returns the 200 response instead of propagating an
`AuthenticationError` after the second 401. -/
theorem C4_counterexample :
    countReauth (request 30 tokState c4Net "GET" c4Url none).events = 2 ∧
    countSendsTo c4Url (request 30 tokState c4Net "GET" c4Url none).events
      = 3 ∧
    (request 30 tokState c4Net "GET" c4Url none).out = .ok ⟨200, "result"⟩ := by
  exact ⟨rfl, rfl, rfl⟩

/-- Claim C4 (amended): each 401 response triggers one re-authentication
followed by one replay of the request with identical method, url and payload
(the replay below is literally `request` at the same arguments on the rest
of the stream); when the re-authentication fails, its error propagates with
no further replay; but cycles repeat for every further 401 on a replay for
as long as re-authentication succeeds - the code has no one-cycle bound. -/
theorem C4_single_cycle_per_401 :
    (∀ (f : Nat) (s : ClientState) (url : String) (r rL rV : Resp)
        (rest : List Resp),
       falsyToken s.access_token = false →
       s.authentication_retries ≠ 3 →
       ¬(s.password = none ∧ s.api_key = none) →
       s.authentication_method = .password →
       r.status = 401 → respOk rL = true → rL.body ≠ "" → rV.status = 200 →
       request (f + 4) s (r :: rL :: rV :: rest) "GET" url none =
         ⟨(request (f + 3)
             { s with access_token := some rL.body,
                      authentication_retries := 0 }
             rest "GET" url none).out,
          (request (f + 3)
             { s with access_token := some rL.body,
                      authentication_retries := 0 }
             rest "GET" url none).state,
          (request (f + 3)
             { s with access_token := some rL.body,
                      authentication_retries := 0 }
             rest "GET" url none).net,
          Ev.send "GET" url none 401 :: Ev.reauth :: Ev.loginPost true ::
            Ev.send "GET" (url_for s "store/websites") none 200 ::
            (request (f + 3)
               { s with access_token := some rL.body,
                        authentication_retries := 0 }
               rest "GET" url none).events⟩) ∧
    (∀ (f : Nat) (s : ClientState) (url : String) (r rL : Resp)
        (rest : List Resp),
       falsyToken s.access_token = false →
       s.authentication_retries ≠ 3 →
       ¬(s.password = none ∧ s.api_key = none) →
       s.authentication_method = .password →
       r.status = 401 → respOk rL = false →
       request (f + 2) s (r :: rL :: rest) "GET" url none =
         ⟨.error (.authenticationError "login request failed"),
          { s with authentication_retries := s.authentication_retries + 1 },
          rest,
          [Ev.send "GET" url none 401, Ev.reauth, Ev.loginPost false]⟩) := by
  constructor
  · intro f s url r rL rV rest htok h3 hcred hmeth hr hL hLbody hV
    have hstep := request_get_401_replay (f + 3) s
      { s with access_token := some rL.body, authentication_retries := 0 }
      r (rL :: rV :: rest) rest url
      [Ev.loginPost true, Ev.send "GET" (url_for s "store/websites") none 200]
      htok hr
      (authenticate_full_success f s rL rV rest h3 hcred hmeth hL hLbody hV)
    simp only [show f + 4 = f + 3 + 1 from rfl]
    rw [hstep]
    simp
  · intro f s url r rL rest htok h3 hcred hmeth hr hL
    have hstep := request_get_401_fail (f + 1) s
      { s with authentication_retries := s.authentication_retries + 1 }
      r (rL :: rest) rest url [Ev.loginPost false]
      (.authenticationError "login request failed") htok hr
      (authenticate_login_failure f s rL rest h3 hcred hmeth hL)
    simp only [show f + 2 = f + 1 + 1 from rfl]
    rw [hstep]

/-- Witness for C4's amended theorem: one full 401 cycle at concrete inputs,
whose replay succeeds immediately. -/
theorem C4_single_cycle_per_401_witness :
    request (0 + 4) tokState
        (⟨401, ""⟩ :: ⟨200, "t1"⟩ :: ⟨200, ""⟩ :: [⟨200, "done"⟩])
        "GET" c4Url none =
      ⟨(request (0 + 3)
          { tokState with access_token := some "t1",
                          authentication_retries := 0 }
          [⟨200, "done"⟩] "GET" c4Url none).out,
       (request (0 + 3)
          { tokState with access_token := some "t1",
                          authentication_retries := 0 }
          [⟨200, "done"⟩] "GET" c4Url none).state,
       (request (0 + 3)
          { tokState with access_token := some "t1",
                          authentication_retries := 0 }
          [⟨200, "done"⟩] "GET" c4Url none).net,
       Ev.send "GET" c4Url none 401 :: Ev.reauth :: Ev.loginPost true ::
         Ev.send "GET" (url_for tokState "store/websites") none 200 ::
         (request (0 + 3)
            { tokState with access_token := some "t1",
                            authentication_retries := 0 }
            [⟨200, "done"⟩] "GET" c4Url none).events⟩ :=
  C4_single_cycle_per_401.1 0 tokState c4Url ⟨401, ""⟩ ⟨200, "t1"⟩ ⟨200, ""⟩
    [⟨200, "done"⟩] (by decide) (by decide) (by simp [tokState]) rfl
    (by decide) (by decide) (by decide) (by decide)

end Magento
